import Mathlib

/-!
Shallow embedding of `magstar_client.py` (Magstar V1 API client).

Modelling conventions:
- Python floats (timestamps, poll delays, field readings) are modelled as `ℚ`.
- Python ints are `ℤ`, Python `None` for an optional argument is `Option.none`.
- A dynamically-typed `station_id` argument is a `PyVal`; `isinstance(x, int)`
  is `PyVal.isinstance_int` (Python `bool` is a subclass of `int`, so booleans
  pass the check).
- The HTTP layer is a parameter: a `server` function mapping a request to
  either an `HttpError` (non-2xx, raised by `raise_for_status`) or the decoded
  JSON body, represented as a typed raw record (`Raw*`).  Each client
  operation returns its result together with the list of requests it issued,
  so "no network call is attempted" is expressible as an empty request list.
- The generator `iterate_station_measurements` is given two semantics, both
  translated from the same loop body:
  * `iterLoop` / `iterate_station_measurements`: fuel-indexed whole-run
    semantics returning the yielded measurements, the requests issued, the
    sleep durations performed, and a termination status;
  * `genNext` on `GenState`: one-`next()` step semantics of the suspended
    generator, used for the lazy/early-termination properties.
-/

namespace Magstar

/-- A dynamically typed Python value passed as `station_id`. -/
inductive PyVal where
  | int (n : ℤ)
  | bool (b : Bool)
  | float (q : ℚ)
  | str (s : String)
  | none
deriving DecidableEq

/-- Python `isinstance(x, int)`.  `bool` is a subclass of `int` in Python,
so boolean values pass the check. -/
def PyVal.isinstance_int : PyVal → Bool
  | .int _ => true
  | .bool _ => true
  | _ => false

/-- A query-parameter value placed in the `params` dict. -/
inductive ParamVal where
  | bool (b : Bool)
  | int (n : ℤ)
  | float (q : ℚ)
deriving DecidableEq

/-- A non-2xx HTTP response, raised by `result.raise_for_status()` in `_get`. -/
structure HttpError where
  status : ℕ
  body : String
deriving DecidableEq

/-- An error surfaced by a client operation: either the failed
`assert isinstance(station_id, int)` (the spec's `InvalidArgument`
condition) or an HTTP failure propagated from `_get`. -/
inductive MagError where
  | invalidArgument
  | request (e : HttpError)
deriving DecidableEq

/-- The decoded JSON body of `GET /v1/stations/{id}` (the raw dict consumed
by `MagstarStationExtendedData.from_api`). -/
structure RawStationExtendedData where
  station_id : ℤ
  name : String
  location : Option String
  lat : Option ℚ
  lon : Option ℚ
  acronym : Option String
  status : Option String
  last_seen : Option ℚ
  earliest_timestamp : Option ℚ
  latest_timestamp : Option ℚ
  latest_x : Option ℚ
  latest_y : Option ℚ
  latest_z : Option ℚ
  latest_horizontal_field_angle : Option ℚ
  latest_horizontal_field_magnitude : Option ℚ
deriving DecidableEq

/-- The dataclass `MagstarStationExtendedData`. -/
structure MagstarStationExtendedData where
  station_id : ℤ
  name : String
  location : Option String
  lat : Option ℚ
  lon : Option ℚ
  acronym : Option String
  status : Option String
  last_seen : Option ℚ
  earliest_timestamp : Option ℚ
  latest_timestamp : Option ℚ
  latest_x : Option ℚ
  latest_y : Option ℚ
  latest_z : Option ℚ
  latest_horizontal_field_angle : Option ℚ
  latest_horizontal_field_magnitude : Option ℚ
deriving DecidableEq

/-- `MagstarStationExtendedData.from_api`: field-by-field construction from
the raw dict. -/
def MagstarStationExtendedData.from_api (raw : RawStationExtendedData) :
    MagstarStationExtendedData :=
  ⟨raw.station_id, raw.name, raw.location, raw.lat, raw.lon, raw.acronym,
   raw.status, raw.last_seen, raw.earliest_timestamp, raw.latest_timestamp,
   raw.latest_x, raw.latest_y, raw.latest_z,
   raw.latest_horizontal_field_angle, raw.latest_horizontal_field_magnitude⟩

/-- One raw measurement object of the measurements endpoint's JSON body. -/
structure RawMeasurement where
  timestamp : ℚ
  x : ℚ
  y : ℚ
  z : ℚ
  temperature : ℚ
  horizontal_field_angle : Option ℚ
  horizontal_field_magnitude : Option ℚ
  operator_config_hash : Option String
  instrument_config_hash : Option String
deriving DecidableEq

/-- The dataclass `MagstarMeasurement`. -/
structure MagstarMeasurement where
  timestamp : ℚ
  b_x : ℚ
  b_y : ℚ
  b_z : ℚ
  temperature : ℚ
  horizontal_field_angle : Option ℚ
  horizontal_field_magnitude : Option ℚ
  operator_config_hash : Option String
  instrument_config_hash : Option String
deriving DecidableEq

/-- `MagstarMeasurement.from_api`: maps the raw keys `x`/`y`/`z` to the
fields `b_x`/`b_y`/`b_z`. -/
def MagstarMeasurement.from_api (raw : RawMeasurement) : MagstarMeasurement :=
  ⟨raw.timestamp, raw.x, raw.y, raw.z, raw.temperature,
   raw.horizontal_field_angle, raw.horizontal_field_magnitude,
   raw.operator_config_hash, raw.instrument_config_hash⟩

/-- The decoded JSON body of `GET /v1/stations/{id}/measurements`. -/
structure RawMeasurementResult where
  measurements : List RawMeasurement
  has_further_data : Bool
  next_ts : Option ℚ
deriving DecidableEq

/-- The dataclass `MagstarMeasurementResult`. -/
structure MagstarMeasurementResult where
  measurements : List MagstarMeasurement
  has_further_data : Bool
  next_ts : Option ℚ
deriving DecidableEq

/-- `MagstarMeasurementResult.from_api`: parses each listed measurement and
copies `has_further_data` and `next_ts` unchanged. -/
def MagstarMeasurementResult.from_api (raw : RawMeasurementResult) :
    MagstarMeasurementResult :=
  ⟨raw.measurements.map MagstarMeasurement.from_api, raw.has_further_data,
   raw.next_ts⟩

/-- One outgoing request to `/v1/stations/{station_id}/measurements`:
the station id interpolated into the path, and the query-parameter dict
(modelled as an insertion-ordered association list). -/
structure Request where
  station_id : PyVal
  params : List (String × ParamVal)
deriving DecidableEq

/-- The `params` dict built by `get_station_measurements_by_id`:
`reverse_order` always; `after_ts`, `before_ts`, `limit` each added only
when the argument is not `None`, in source order. -/
def build_measurement_params (after_ts before_ts : Option ℚ) (limit : Option ℤ)
    (reverse_order : Bool) : List (String × ParamVal) :=
  [("reverse_order", ParamVal.bool reverse_order)]
    ++ (match after_ts with
        | some t => [("after_ts", ParamVal.float t)]
        | none => [])
    ++ (match before_ts with
        | some t => [("before_ts", ParamVal.float t)]
        | none => [])
    ++ (match limit with
        | some n => [("limit", ParamVal.int n)]
        | none => [])

/-- `get_station_details_by_id`: asserts `isinstance(station_id, int)`
before doing anything else; on success issues one GET for
`/v1/stations/{station_id}` and parses the body.  Returns the result
together with the list of station ids requested over the network. -/
def get_station_details_by_id
    (server : PyVal → Except HttpError RawStationExtendedData)
    (station_id : PyVal) :
    Except MagError MagstarStationExtendedData × List PyVal :=
  if station_id.isinstance_int then
    match server station_id with
    | .error e => (.error (.request e), [station_id])
    | .ok raw => (.ok (MagstarStationExtendedData.from_api raw), [station_id])
  else
    (.error .invalidArgument, [])

/-- `get_station_measurements_by_id`: asserts `isinstance(station_id, int)`,
builds the query parameters, issues one GET for
`/v1/stations/{station_id}/measurements` and parses the body.  Returns the
result together with the list of requests issued (the request is sent
before the status check, so it is recorded in the error case too). -/
def get_station_measurements_by_id
    (server : Request → Except HttpError RawMeasurementResult)
    (station_id : PyVal) (after_ts before_ts : Option ℚ) (limit : Option ℤ)
    (reverse_order : Bool) :
    Except MagError MagstarMeasurementResult × List Request :=
  if station_id.isinstance_int then
    let req : Request :=
      ⟨station_id, build_measurement_params after_ts before_ts limit reverse_order⟩
    match server req with
    | .error e => (.error (.request e), [req])
    | .ok raw => (.ok (MagstarMeasurementResult.from_api raw), [req])
  else
    (.error .invalidArgument, [])

/-- How a run of the streaming iterator ended: the final page reported
`has_further_data = false` (`done`), a fetch raised (`failed`), or the
fuel bound was reached before either (`fuelOut`). -/
inductive IterStatus where
  | done
  | failed (e : MagError)
  | fuelOut
deriving DecidableEq

/-- Whole-run observable trace of `iterate_station_measurements`: the
measurements yielded in order, the page requests issued in order, the
`time.sleep` durations performed in order, and how the run ended. -/
structure IterResult where
  yields : List MagstarMeasurement
  requests : List Request
  sleeps : List ℚ
  status : IterStatus
deriving DecidableEq

/-- The `while need_measurements` loop body of
`iterate_station_measurements`, fuel-indexed.  `k` counts the page fetches
already performed, so a stateful mock page source can be modelled as a
function of `k`.  Per iteration: fetch one page with the current cursor
bounds and `limit=2500`; yield its measurements; set `need_measurements`
to `has_further_data`; if more data remains, advance the cursor on the
side matching the direction; sleep (also after the final page).  A fetch
error propagates immediately: nothing further is yielded, requested or
slept. -/
def iterLoop (src : ℕ → Request → Except HttpError RawMeasurementResult)
    (station_id : PyVal) (reverse_order : Bool) (poll_delay : ℚ) :
    ℕ → ℕ → Option ℚ → Option ℚ → IterResult
  | 0, _, _, _ => ⟨[], [], [], .fuelOut⟩
  | fuel + 1, k, next_after_ts, next_before_ts =>
    match get_station_measurements_by_id (src k) station_id next_after_ts
        next_before_ts (some 2500) reverse_order with
    | (.error e, reqs) => ⟨[], reqs, [], .failed e⟩
    | (.ok result, reqs) =>
      if result.has_further_data then
        let a := if reverse_order then next_after_ts else result.next_ts
        let b := if reverse_order then result.next_ts else next_before_ts
        let rest := iterLoop src station_id reverse_order poll_delay fuel (k + 1) a b
        ⟨result.measurements ++ rest.yields, reqs ++ rest.requests,
         poll_delay :: rest.sleeps, rest.status⟩
      else
        ⟨result.measurements, reqs, [poll_delay], .done⟩

/-- `iterate_station_measurements`, whole-run semantics: clamps
`poll_delay = max(poll_delay, 0.1)` once, then runs the fetch loop from the
caller's initial cursor bounds with at most `fuel` page fetches. -/
def iterate_station_measurements
    (src : ℕ → Request → Except HttpError RawMeasurementResult)
    (station_id : PyVal) (after_ts before_ts : Option ℚ)
    (reverse_order : Bool) (poll_delay : ℚ) (fuel : ℕ) : IterResult :=
  iterLoop src station_id reverse_order (max poll_delay (1 / 10)) fuel 0
    after_ts before_ts

/-- The suspended state of the generator between two `next()` calls:
the measurements of the current page not yet yielded, the loop variables
`need_measurements`, `next_after_ts`, `next_before_ts`, and the number of
page fetches performed so far. -/
structure GenState where
  buffer : List MagstarMeasurement
  need_measurements : Bool
  next_after_ts : Option ℚ
  next_before_ts : Option ℚ
  fetches : ℕ
deriving DecidableEq

/-- Generator state just after `iterate_station_measurements` is called:
no page fetched yet, cursor seeded from the caller's bounds. -/
def genInit (after_ts before_ts : Option ℚ) : GenState :=
  ⟨[], true, after_ts, before_ts, 0⟩

/-- The outcome of one `next()` call on the generator: a yielded
measurement with the successor state, normal exhaustion (`StopIteration`),
a propagated error, or fuel exhaustion (only reachable through an
unbounded run of empty pages). -/
inductive GenStep where
  | yield (m : MagstarMeasurement) (s : GenState)
  | stop
  | raise (e : MagError)
  | fuelOut
deriving DecidableEq

/-- One `next()` call on the suspended generator: if measurements of the
current page remain they are yielded one at a time without any fetch;
otherwise the loop body resumes: if `need_measurements` is false the
generator is exhausted, else it fetches the next page with the current
cursor bounds and `limit=2500`, updates `need_measurements` and the
direction-matching cursor side, and continues until it can yield (or
stop, or raise). -/
def genNext (src : ℕ → Request → Except HttpError RawMeasurementResult)
    (station_id : PyVal) (reverse_order : Bool) :
    ℕ → GenState → GenStep
  | _, ⟨m :: rest, need, a, b, k⟩ => .yield m ⟨rest, need, a, b, k⟩
  | _, ⟨[], false, _, _, _⟩ => .stop
  | 0, ⟨[], true, _, _, _⟩ => .fuelOut
  | fuel + 1, ⟨[], true, a, b, k⟩ =>
    match get_station_measurements_by_id (src k) station_id a b (some 2500)
        reverse_order with
    | (.error e, _) => .raise e
    | (.ok result, _) =>
      genNext src station_id reverse_order fuel
        ⟨result.measurements, result.has_further_data,
         (if result.has_further_data && !reverse_order then result.next_ts else a),
         (if result.has_further_data && reverse_order then result.next_ts else b),
         k + 1⟩

/-- A station-detail server that always fails; used to witness that the
argument check fires before any network interaction matters. -/
def failStationServer : PyVal → Except HttpError RawStationExtendedData :=
  fun _ => .error ⟨500, "server error"⟩

/-- A measurements server that always fails. -/
def failMeasurementServer : Request → Except HttpError RawMeasurementResult :=
  fun _ => .error ⟨500, "server error"⟩

/-- A concrete raw station-detail body whose `station_id` is 5. -/
def sampleRawStation : RawStationExtendedData :=
  ⟨5, "Anchorage", none, none, none, none, none, none, none, none, none,
   none, none, none, none⟩

/-- A station-detail server answering every request with
`sampleRawStation`. -/
def sampleStationServer : PyVal → Except HttpError RawStationExtendedData :=
  fun _ => .ok sampleRawStation

/-- Keyed lookups into the query parameters built by
`build_measurement_params`: each optional argument is present exactly when
it was provided. -/
theorem build_measurement_params_lookup (a b : Option ℚ) (l : Option ℤ)
    (rev : Bool) :
    ((build_measurement_params a b l rev).lookup "reverse_order"
        = some (ParamVal.bool rev))
    ∧ ((build_measurement_params a b l rev).lookup "after_ts"
        = a.map ParamVal.float)
    ∧ ((build_measurement_params a b l rev).lookup "before_ts"
        = b.map ParamVal.float)
    ∧ ((build_measurement_params a b l rev).lookup "limit"
        = l.map ParamVal.int) := by
  rcases a with _ | t <;> rcases b with _ | u <;> rcases l with _ | n <;>
    simp [build_measurement_params, List.lookup]

/-- `get_station_measurements_by_id` with an integer station id issues
exactly one request, carrying exactly the built parameters, whatever the
server answers. -/
theorem get_station_measurements_by_id_requests
    (server : Request → Except HttpError RawMeasurementResult)
    (n : ℤ) (a b : Option ℚ) (l : Option ℤ) (rev : Bool) :
    (get_station_measurements_by_id server (.int n) a b l rev).2
      = [⟨.int n, build_measurement_params a b l rev⟩] := by
  cases h : server ⟨.int n, build_measurement_params a b l rev⟩ <;>
    simp [get_station_measurements_by_id, PyVal.isinstance_int, h]

/-- C3: for every `station_id` value failing Python's
`isinstance(station_id, int)`, `get_station_details_by_id` fails with the
`InvalidArgument` condition (the failed assert) and issues no request. -/
theorem c3_get_station_nonint_no_request
    (server : PyVal → Except HttpError RawStationExtendedData)
    (v : PyVal) (h : v.isinstance_int = false) :
    get_station_details_by_id server v = (.error .invalidArgument, []) := by
  simp [get_station_details_by_id, h]

/-- C3 witness: a string station id is rejected with no request issued. -/
theorem c3_witness :
    (PyVal.str "7").isinstance_int = false
    ∧ get_station_details_by_id failStationServer (.str "7")
        = (.error .invalidArgument, []) :=
  ⟨rfl, c3_get_station_nonint_no_request failStationServer (.str "7") rfl⟩

/-- C10: for every `station_id` value failing `isinstance(station_id, int)`,
`get_station_measurements_by_id` likewise fails with the `InvalidArgument`
condition before any request is issued. -/
theorem c10_get_measurements_nonint_no_request
    (server : Request → Except HttpError RawMeasurementResult)
    (v : PyVal) (a b : Option ℚ) (l : Option ℤ) (rev : Bool)
    (h : v.isinstance_int = false) :
    get_station_measurements_by_id server v a b l rev
      = (.error .invalidArgument, []) := by
  simp [get_station_measurements_by_id, h]

/-- C10 witness: a float station id is rejected with no request issued. -/
theorem c10_witness :
    (PyVal.float (1 / 2)).isinstance_int = false
    ∧ get_station_measurements_by_id failMeasurementServer
        (.float (1 / 2)) none none none false
        = (.error .invalidArgument, []) :=
  ⟨rfl, c10_get_measurements_nonint_no_request failMeasurementServer
    (.float (1 / 2)) none none none false rfl⟩

/-- C5: with `limit` omitted the outgoing parameters contain no `limit`
key at all; with `limit=N` supplied the `limit` parameter is exactly `N`
for every integer `N` (including values above 2500); and the single
outgoing request of `get_station_measurements_by_id` carries exactly
these parameters. -/
theorem c5_limit_passthrough
    (server : Request → Except HttpError RawMeasurementResult)
    (n : ℤ) (a b : Option ℚ) (rev : Bool) :
    ((build_measurement_params a b none rev).lookup "limit" = none)
    ∧ (∀ v : ParamVal, ("limit", v) ∉ build_measurement_params a b none rev)
    ∧ (∀ N : ℤ, (build_measurement_params a b (some N) rev).lookup "limit"
        = some (ParamVal.int N))
    ∧ (∀ l : Option ℤ, (get_station_measurements_by_id server (.int n) a b l rev).2
        = [⟨.int n, build_measurement_params a b l rev⟩]) := by
  refine ⟨(build_measurement_params_lookup a b none rev).2.2.2, ?_, ?_, ?_⟩
  · intro v
    rcases a with _ | t <;> rcases b with _ | u <;>
      simp [build_measurement_params]
  · intro N
    exact (build_measurement_params_lookup a b (some N) rev).2.2.2
  · intro l
    exact get_station_measurements_by_id_requests server n a b l rev

/-- C5 witness: at concrete arguments, the omitted-limit request has no
`limit` key and a supplied `limit` of 9999 passes through unmodified. -/
theorem c5_witness :
    ((build_measurement_params (some 1) none none false).lookup "limit" = none)
    ∧ (("limit", ParamVal.int 9999)
        ∉ build_measurement_params (some 1) none none false)
    ∧ ((build_measurement_params (some 1) none (some 9999) false).lookup "limit"
        = some (ParamVal.int 9999))
    ∧ ((get_station_measurements_by_id failMeasurementServer (.int 3)
          (some 1) none (some 9999) false).2
        = [⟨.int 3, build_measurement_params (some 1) none (some 9999) false⟩]) :=
  ⟨(c5_limit_passthrough failMeasurementServer 3 (some 1) none false).1,
   (c5_limit_passthrough failMeasurementServer 3 (some 1) none false).2.1
     (ParamVal.int 9999),
   (c5_limit_passthrough failMeasurementServer 3 (some 1) none false).2.2.1 9999,
   (c5_limit_passthrough failMeasurementServer 3 (some 1) none false).2.2.2
     (some 9999)⟩

/-- C6: the built query parameters always contain `reverse_order`, and
contain `after_ts`, `before_ts`, `limit` exactly when the corresponding
argument is not `None` (an `Option.map` result is `some` exactly on `some`
inputs); the single outgoing request carries exactly these parameters. -/
theorem c6_query_param_inclusion
    (server : Request → Except HttpError RawMeasurementResult)
    (n : ℤ) (after_ts before_ts : Option ℚ) (limit : Option ℤ) (rev : Bool) :
    ((build_measurement_params after_ts before_ts limit rev).lookup "reverse_order"
        = some (ParamVal.bool rev))
    ∧ ((build_measurement_params after_ts before_ts limit rev).lookup "after_ts"
        = after_ts.map ParamVal.float)
    ∧ ((build_measurement_params after_ts before_ts limit rev).lookup "before_ts"
        = before_ts.map ParamVal.float)
    ∧ ((build_measurement_params after_ts before_ts limit rev).lookup "limit"
        = limit.map ParamVal.int)
    ∧ ((get_station_measurements_by_id server (.int n) after_ts before_ts
          limit rev).2
        = [⟨.int n, build_measurement_params after_ts before_ts limit rev⟩]) :=
  ⟨(build_measurement_params_lookup after_ts before_ts limit rev).1,
   (build_measurement_params_lookup after_ts before_ts limit rev).2.1,
   (build_measurement_params_lookup after_ts before_ts limit rev).2.2.1,
   (build_measurement_params_lookup after_ts before_ts limit rev).2.2.2,
   get_station_measurements_by_id_requests server n after_ts before_ts limit rev⟩

/-- C9: if the server answers `/v1/stations/{n}` with a body whose
`station_id` is `n` (the service contract for a valid id), then the detail
record returned by `get_station_details_by_id` has `station_id = n`. -/
theorem c9_station_detail_id_matches
    (server : PyVal → Except HttpError RawStationExtendedData)
    (n : ℤ) (raw : RawStationExtendedData) (d : MagstarStationExtendedData)
    (hraw : server (.int n) = .ok raw)
    (hid : raw.station_id = n)
    (hres : (get_station_details_by_id server (.int n)).1 = .ok d) :
    d.station_id = n := by
  simp [get_station_details_by_id, PyVal.isinstance_int, hraw] at hres
  rw [← hres, MagstarStationExtendedData.from_api]
  exact hid

/-- C9 witness: fetching station 5 from a server echoing id 5 yields a
record with `station_id = 5`. -/
theorem c9_witness :
    (MagstarStationExtendedData.from_api sampleRawStation).station_id = 5 :=
  c9_station_detail_id_matches sampleStationServer 5 sampleRawStation
    (MagstarStationExtendedData.from_api sampleRawStation) rfl rfl rfl

/-- A page source whose every fetch fails with HTTP 503. -/
def failSrc : ℕ → Request → Except HttpError RawMeasurementResult :=
  fun _ _ => .error ⟨503, "service unavailable"⟩

/-- A page source that answers every fetch with a single empty terminal
page. -/
def onePageSrc : ℕ → Request → Except HttpError RawMeasurementResult :=
  fun _ _ => .ok ⟨[], false, none⟩

/-- Raw measurement bodies used by the concrete three-page source. -/
def rawM1 : RawMeasurement := ⟨1, 10, 11, 12, 20, none, none, none, none⟩

/-- Second raw measurement of the first mock page. -/
def rawM2 : RawMeasurement := ⟨2, 13, 14, 15, 20, none, none, none, none⟩

/-- Sole raw measurement of the second mock page. -/
def rawM3 : RawMeasurement := ⟨3, 16, 17, 18, 21, none, none, none, none⟩

/-- Sole raw measurement of the third mock page. -/
def rawM4 : RawMeasurement := ⟨4, 19, 20, 21, 22, none, none, none, none⟩

/-- First mock page: two measurements, more data available, cursor 2. -/
def pageA : RawMeasurementResult := ⟨[rawM1, rawM2], true, some 2⟩

/-- Second mock page: one measurement, more data available, cursor 3. -/
def pageB : RawMeasurementResult := ⟨[rawM3], true, some 3⟩

/-- Third mock page: one measurement, terminal. -/
def pageC : RawMeasurementResult := ⟨[rawM4], false, none⟩

/-- A mock page source: `has_further_data = true` for the first two
fetches, `false` for the third, regardless of the request content. -/
def threePageSrc : ℕ → Request → Except HttpError RawMeasurementResult :=
  fun k _ => if k = 0 then .ok pageA else if k = 1 then .ok pageB else .ok pageC

/-- C4: if the page fetch at any iteration state fails, the error
propagates out at that fetch: nothing further is yielded, no further
request is issued (no retry), and no sleep follows; and a successful
non-terminal fetch prefixes its page's measurements onto whatever the
remaining iteration delivers, so measurements from prior pages stay
delivered whatever happens later. -/
theorem c4_fetch_error_propagates
    (src : ℕ → Request → Except HttpError RawMeasurementResult)
    (station_id : PyVal) (rev : Bool) (poll : ℚ) (fuel k : ℕ)
    (a b : Option ℚ) (e : MagError) (reqs : List Request)
    (r : MagstarMeasurementResult) (reqs2 : List Request) :
    (get_station_measurements_by_id (src k) station_id a b (some 2500) rev
        = (.error e, reqs) →
      iterLoop src station_id rev poll (fuel + 1) k a b
        = ⟨[], reqs, [], .failed e⟩)
    ∧ (get_station_measurements_by_id (src k) station_id a b (some 2500) rev
        = (.ok r, reqs2) →
      r.has_further_data = true →
      (iterLoop src station_id rev poll (fuel + 1) k a b).yields
        = r.measurements
          ++ (iterLoop src station_id rev poll fuel (k + 1)
                (if rev then a else r.next_ts)
                (if rev then r.next_ts else b)).yields) := by
  constructor
  · intro h
    simp [iterLoop, h]
  · intro h hf
    simp [iterLoop, h, hf]

/-- C4 witness: with a source failing on the very first fetch, iteration
stops at that fetch with the propagated 503 error, an empty yield list and
exactly the one failing request. -/
theorem c4_witness :
    iterLoop failSrc (.int 1) false 1 (0 + 1) 0 none none
      = ⟨[], [⟨.int 1, build_measurement_params none none (some 2500) false⟩],
         [], .failed (.request ⟨503, "service unavailable"⟩)⟩ :=
  (c4_fetch_error_propagates failSrc (.int 1) false 1 0 0 none none
    (.request ⟨503, "service unavailable"⟩)
    [⟨.int 1, build_measurement_params none none (some 2500) false⟩]
    ⟨[], false, none⟩ []).1 rfl

/-- Every sleep performed by `iterLoop` has exactly the duration it was
started with. -/
theorem iterLoop_sleeps_eq
    (src : ℕ → Request → Except HttpError RawMeasurementResult)
    (station_id : PyVal) (rev : Bool) (p : ℚ) :
    ∀ fuel k a b, ∀ d ∈ (iterLoop src station_id rev p fuel k a b).sleeps,
      d = p := by
  intro fuel
  induction fuel with
  | zero => intro k a b d hd; simp [iterLoop] at hd
  | succ f ih =>
    intro k a b d hd
    rcases hget : get_station_measurements_by_id (src k) station_id a b
        (some 2500) rev with ⟨res, reqs⟩
    cases res with
    | error e => simp [iterLoop, hget] at hd
    | ok r =>
      by_cases hf : r.has_further_data = true
      · simp [iterLoop, hget, hf] at hd
        rcases hd with hd | hd
        · exact hd
        · exact ih (k + 1) _ _ d hd
      · simp [iterLoop, hget, hf] at hd
        exact hd

/-- C7: every inter-fetch delay performed by the streaming iterator equals
`max(poll_delay, 0.1)`; in particular with `poll_delay = 0` every
performed delay is at least 0.1 seconds. -/
theorem c7_poll_delay_floor
    (src : ℕ → Request → Except HttpError RawMeasurementResult)
    (station_id : PyVal) (a b : Option ℚ) (rev : Bool) (poll : ℚ) (fuel : ℕ) :
    (∀ d ∈ (iterate_station_measurements src station_id a b rev poll fuel).sleeps,
      d = max poll (1 / 10))
    ∧ (∀ d ∈ (iterate_station_measurements src station_id a b rev 0 fuel).sleeps,
      (1 / 10 : ℚ) ≤ d) := by
  constructor
  · intro d hd
    simp only [iterate_station_measurements] at hd
    exact iterLoop_sleeps_eq src station_id rev (max poll (1 / 10)) fuel 0 a b d hd
  · intro d hd
    simp only [iterate_station_measurements] at hd
    rw [iterLoop_sleeps_eq src station_id rev (max 0 (1 / 10)) fuel 0 a b d hd]
    exact le_max_right 0 (1 / 10)

/-- C7 witness: a one-page run with `poll_delay = 0` performs a sleep of
duration `max 0 (1/10)`, which is at least `1/10`. -/
theorem c7_witness :
    max (0 : ℚ) (1 / 10) = max (0 : ℚ) (1 / 10)
    ∧ (1 / 10 : ℚ) ≤ max (0 : ℚ) (1 / 10) :=
  ⟨(c7_poll_delay_floor onePageSrc (.int 1) none none false 0 1).1
      (max 0 (1 / 10)) (List.mem_singleton.mpr rfl),
   (c7_poll_delay_floor onePageSrc (.int 1) none none false 0 1).2
      (max 0 (1 / 10)) (List.mem_singleton.mpr rfl)⟩

/-- C1: against any page source answering its first three fetches with
pages whose `has_further_data` flags are true, true, false, the streaming
iterator (with any fuel bound of at least 3) yields exactly the
concatenation of the three pages' measurements in page order, issues
exactly three requests, and terminates normally. -/
theorem c1_streaming_termination
    (src : ℕ → Request → Except HttpError RawMeasurementResult)
    (n : ℤ) (after_ts before_ts : Option ℚ) (rev : Bool) (poll : ℚ)
    (p1 p2 p3 : RawMeasurementResult)
    (h1 : ∀ req, src 0 req = .ok p1)
    (h2 : ∀ req, src 1 req = .ok p2)
    (h3 : ∀ req, src 2 req = .ok p3)
    (f1 : p1.has_further_data = true)
    (f2 : p2.has_further_data = true)
    (f3 : p3.has_further_data = false)
    (fuel : ℕ) (hfuel : 3 ≤ fuel) :
    ((iterate_station_measurements src (.int n) after_ts before_ts rev poll
        fuel).yields
      = p1.measurements.map MagstarMeasurement.from_api
        ++ p2.measurements.map MagstarMeasurement.from_api
        ++ p3.measurements.map MagstarMeasurement.from_api)
    ∧ ((iterate_station_measurements src (.int n) after_ts before_ts rev poll
        fuel).requests.length = 3)
    ∧ ((iterate_station_measurements src (.int n) after_ts before_ts rev poll
        fuel).status = .done) := by
  obtain ⟨f, rfl⟩ : ∃ f, fuel = f + 1 + 1 + 1 := ⟨fuel - 3, by omega⟩
  simp [iterate_station_measurements, iterLoop, get_station_measurements_by_id,
    PyVal.isinstance_int, h1, h2, h3, f1, f2, f3,
    MagstarMeasurementResult.from_api]

/-- C1 witness: the concrete three-page source yields the four mock
measurements in order over exactly three fetches and terminates. -/
theorem c1_witness :
    ((iterate_station_measurements threePageSrc (.int 9) none none false 0
        3).yields
      = pageA.measurements.map MagstarMeasurement.from_api
        ++ pageB.measurements.map MagstarMeasurement.from_api
        ++ pageC.measurements.map MagstarMeasurement.from_api)
    ∧ ((iterate_station_measurements threePageSrc (.int 9) none none false 0
        3).requests.length = 3)
    ∧ ((iterate_station_measurements threePageSrc (.int 9) none none false 0
        3).status = .done) :=
  c1_streaming_termination threePageSrc 9 none none false 0 pageA pageB pageC
    (fun _ => rfl) (fun _ => rfl) (fun _ => rfl) rfl rfl rfl 3 (by omega)

/-- Whenever the loop has fuel for at least one fetch, its first issued
request carries exactly the parameters built from the current cursor
bounds, `limit = 2500` and the direction flag, whatever the server
answers. -/
theorem iterLoop_head_request
    (src : ℕ → Request → Except HttpError RawMeasurementResult)
    (n : ℤ) (rev : Bool) (poll : ℚ) (fuel k : ℕ) (a b : Option ℚ) :
    (iterLoop src (.int n) rev poll (fuel + 1) k a b).requests.head?
      = some ⟨.int n, build_measurement_params a b (some 2500) rev⟩ := by
  rcases hget : get_station_measurements_by_id (src k) (.int n) a b
      (some 2500) rev with ⟨res, reqs⟩
  have hreq : reqs = [⟨.int n, build_measurement_params a b (some 2500) rev⟩] := by
    have h2 := get_station_measurements_by_id_requests (src k) n a b (some 2500) rev
    rw [hget] at h2
    exact h2
  cases res with
  | error e => simp [iterLoop, hget, hreq]
  | ok r =>
    by_cases hf : r.has_further_data = true
    · simp [iterLoop, hget, hreq, hf]
    · simp [iterLoop, hget, hreq, hf]

/-- In forward mode the `before_ts` side of the cursor is never modified:
every request the loop ever issues carries the original `before_ts`. -/
theorem iterLoop_forward_before_ts_const
    (src : ℕ → Request → Except HttpError RawMeasurementResult)
    (n : ℤ) (poll : ℚ) (b : Option ℚ) :
    ∀ fuel k a, ∀ req ∈ (iterLoop src (.int n) false poll fuel k a b).requests,
      req.params.lookup "before_ts" = b.map ParamVal.float := by
  intro fuel
  induction fuel with
  | zero => intro k a req h; simp [iterLoop] at h
  | succ f ih =>
    intro k a req h
    rcases hget : get_station_measurements_by_id (src k) (.int n) a b
        (some 2500) false with ⟨res, reqs⟩
    have hreq : reqs
        = [⟨.int n, build_measurement_params a b (some 2500) false⟩] := by
      have h2 := get_station_measurements_by_id_requests (src k) n a b
        (some 2500) false
      rw [hget] at h2
      exact h2
    cases res with
    | error e =>
      simp [iterLoop, hget, hreq] at h
      subst h
      exact (build_measurement_params_lookup a b (some 2500) false).2.2.1
    | ok r =>
      by_cases hf : r.has_further_data = true
      · simp [iterLoop, hget, hreq, hf] at h
        rcases h with h | h
        · subst h
          exact (build_measurement_params_lookup a b (some 2500) false).2.2.1
        · exact ih (k + 1) r.next_ts req h
      · simp [iterLoop, hget, hreq, hf] at h
        subst h
        exact (build_measurement_params_lookup a b (some 2500) false).2.2.1

/-- In reverse mode the `after_ts` side of the cursor is never modified:
every request the loop ever issues carries the original `after_ts`. -/
theorem iterLoop_reverse_after_ts_const
    (src : ℕ → Request → Except HttpError RawMeasurementResult)
    (n : ℤ) (poll : ℚ) (a : Option ℚ) :
    ∀ fuel k b, ∀ req ∈ (iterLoop src (.int n) true poll fuel k a b).requests,
      req.params.lookup "after_ts" = a.map ParamVal.float := by
  intro fuel
  induction fuel with
  | zero => intro k b req h; simp [iterLoop] at h
  | succ f ih =>
    intro k b req h
    rcases hget : get_station_measurements_by_id (src k) (.int n) a b
        (some 2500) true with ⟨res, reqs⟩
    have hreq : reqs
        = [⟨.int n, build_measurement_params a b (some 2500) true⟩] := by
      have h2 := get_station_measurements_by_id_requests (src k) n a b
        (some 2500) true
      rw [hget] at h2
      exact h2
    cases res with
    | error e =>
      simp [iterLoop, hget, hreq] at h
      subst h
      exact (build_measurement_params_lookup a b (some 2500) true).2.1
    | ok r =>
      by_cases hf : r.has_further_data = true
      · simp [iterLoop, hget, hreq, hf] at h
        rcases h with h | h
        · subst h
          exact (build_measurement_params_lookup a b (some 2500) true).2.1
        · exact ih (k + 1) r.next_ts req h
      · simp [iterLoop, hget, hreq, hf] at h
        subst h
        exact (build_measurement_params_lookup a b (some 2500) true).2.1

/-- C2: after a forward-mode page with `has_further_data = true` and
`next_ts = T`, the next fetch (the second request of the remaining trace)
is built from `after_ts = T` with `before_ts` still the current value; in
reverse mode the symmetric statement holds; the built parameters make the
advanced side `T` and keep the opposite side unchanged; and the
opposite-side bound is never modified by any iteration step in either
mode. -/
theorem c2_cursor_advancement
    (src : ℕ → Request → Except HttpError RawMeasurementResult)
    (n : ℤ) (a b : Option ℚ) (poll : ℚ) (fuel k : ℕ)
    (r : MagstarMeasurementResult) (T : ℚ) :
    ((get_station_measurements_by_id (src k) (.int n) a b (some 2500) false).1
        = .ok r →
      r.has_further_data = true → r.next_ts = some T →
      (iterLoop src (.int n) false poll (fuel + 1 + 1) k a b).requests.tail.head?
        = some ⟨.int n, build_measurement_params (some T) b (some 2500) false⟩)
    ∧ ((get_station_measurements_by_id (src k) (.int n) a b (some 2500) true).1
        = .ok r →
      r.has_further_data = true → r.next_ts = some T →
      (iterLoop src (.int n) true poll (fuel + 1 + 1) k a b).requests.tail.head?
        = some ⟨.int n, build_measurement_params a (some T) (some 2500) true⟩)
    ∧ ((build_measurement_params (some T) b (some 2500) false).lookup "after_ts"
        = some (ParamVal.float T))
    ∧ ((build_measurement_params (some T) b (some 2500) false).lookup "before_ts"
        = b.map ParamVal.float)
    ∧ ((build_measurement_params a (some T) (some 2500) true).lookup "before_ts"
        = some (ParamVal.float T))
    ∧ ((build_measurement_params a (some T) (some 2500) true).lookup "after_ts"
        = a.map ParamVal.float)
    ∧ (∀ fuel2 k2 a2,
        ∀ req ∈ (iterLoop src (.int n) false poll fuel2 k2 a2 b).requests,
          req.params.lookup "before_ts" = b.map ParamVal.float)
    ∧ (∀ fuel2 k2 b2,
        ∀ req ∈ (iterLoop src (.int n) true poll fuel2 k2 a b2).requests,
          req.params.lookup "after_ts" = a.map ParamVal.float) := by
  refine ⟨?_, ?_,
    (build_measurement_params_lookup (some T) b (some 2500) false).2.1,
    (build_measurement_params_lookup (some T) b (some 2500) false).2.2.1,
    (build_measurement_params_lookup a (some T) (some 2500) true).2.2.1,
    (build_measurement_params_lookup a (some T) (some 2500) true).2.1,
    fun fuel2 k2 a2 =>
      iterLoop_forward_before_ts_const src n poll b fuel2 k2 a2,
    fun fuel2 k2 b2 =>
      iterLoop_reverse_after_ts_const src n poll a fuel2 k2 b2⟩
  · intro h hf hn
    have hpair : get_station_measurements_by_id (src k) (.int n) a b
        (some 2500) false
        = (.ok r, [⟨.int n, build_measurement_params a b (some 2500) false⟩]) := by
      have h2 := get_station_measurements_by_id_requests (src k) n a b
        (some 2500) false
      exact Prod.ext h h2
    simp [iterLoop, hpair, hf, hn]
    exact iterLoop_head_request src n false poll fuel (k + 1) (some T) b
  · intro h hf hn
    have hpair : get_station_measurements_by_id (src k) (.int n) a b
        (some 2500) true
        = (.ok r, [⟨.int n, build_measurement_params a b (some 2500) true⟩]) := by
      have h2 := get_station_measurements_by_id_requests (src k) n a b
        (some 2500) true
      exact Prod.ext h h2
    simp [iterLoop, hpair, hf, hn]
    exact iterLoop_head_request src n true poll fuel (k + 1) a (some T)

/-- C2 witness: after the concrete first page (cursor 2) in forward mode
with original `before_ts = 100`, the second request is built from
`after_ts = 2`, `before_ts = 100`; and a concrete issued request still
carries `before_ts = 100`. -/
theorem c2_witness :
    ((iterLoop threePageSrc (.int 9) false 0 (0 + 1 + 1) 0 none
        (some 100)).requests.tail.head?
      = some ⟨.int 9,
          build_measurement_params (some 2) (some 100) (some 2500) false⟩)
    ∧ ((⟨.int 9, build_measurement_params none (some 100) (some 2500) false⟩
          : Request).params.lookup "before_ts"
        = (some (100 : ℚ)).map ParamVal.float) :=
  ⟨(c2_cursor_advancement threePageSrc 9 none (some 100) 0 0 0
      (MagstarMeasurementResult.from_api pageA) 2).1 rfl rfl rfl,
   (c2_cursor_advancement threePageSrc 9 none (some 100) 0 0 0
      (MagstarMeasurementResult.from_api pageA) 2).2.2.2.2.2.2.1 1 0 none
      ⟨.int 9, build_measurement_params none (some 100) (some 2500) false⟩
      (List.mem_singleton.mpr rfl)⟩

/-- C8: pulling the next element while measurements of the current page
remain buffered yields the next buffered measurement and performs no page
fetch (the fetch count and cursor state are unchanged); and from the
initial generator state, over a source whose first page is non-empty, the
first pull performs exactly one page fetch and yields that page's first
measurement, so a consumer stopping after the first element never causes
a second fetch. -/
theorem c8_lazy_single_fetch
    (src : ℕ → Request → Except HttpError RawMeasurementResult)
    (n : ℤ) (rev : Bool) (fuel : ℕ) (s : GenState)
    (m : MagstarMeasurement) (rest : List MagstarMeasurement)
    (a b : Option ℚ) (p : RawMeasurementResult)
    (pm : RawMeasurement) (pms : List RawMeasurement) :
    (s.buffer = m :: rest →
      genNext src (.int n) rev fuel s
        = .yield m ⟨rest, s.need_measurements, s.next_after_ts,
            s.next_before_ts, s.fetches⟩)
    ∧ ((∀ req, src 0 req = .ok p) → p.measurements = pm :: pms →
      genNext src (.int n) rev (fuel + 1) (genInit a b)
        = .yield (MagstarMeasurement.from_api pm)
            ⟨pms.map MagstarMeasurement.from_api, p.has_further_data,
             (if p.has_further_data && !rev then p.next_ts else a),
             (if p.has_further_data && rev then p.next_ts else b), 1⟩) := by
  constructor
  · obtain ⟨buf, need, a0, b0, k0⟩ := s
    intro h
    subst h
    cases fuel <;> rfl
  · intro h hm
    simp [genNext, genInit, get_station_measurements_by_id,
      PyVal.isinstance_int, h, MagstarMeasurementResult.from_api, hm]

/-- C8 witness: a pull with one measurement still buffered yields it
without changing the fetch count; and the first pull on the concrete
three-page source performs exactly one fetch and yields the first mock
measurement. -/
theorem c8_witness :
    (genNext threePageSrc (.int 9) false 5
        ⟨[MagstarMeasurement.from_api rawM1], false, none, none, 1⟩
      = .yield (MagstarMeasurement.from_api rawM1) ⟨[], false, none, none, 1⟩)
    ∧ (genNext threePageSrc (.int 9) false 1 (genInit none none)
        = .yield (MagstarMeasurement.from_api rawM1)
            ⟨[MagstarMeasurement.from_api rawM2], true, some 2, none, 1⟩) :=
  ⟨(c8_lazy_single_fetch threePageSrc 9 false 5
      ⟨[MagstarMeasurement.from_api rawM1], false, none, none, 1⟩
      (MagstarMeasurement.from_api rawM1) [] none none
      ⟨[], false, none⟩ rawM1 []).1 rfl,
   (c8_lazy_single_fetch threePageSrc 9 false 0
      ⟨[], true, none, none, 0⟩
      (MagstarMeasurement.from_api rawM1) [] none none
      pageA rawM1 [rawM2]).2 (fun _ => rfl) rfl⟩

end Magstar
